import Mathlib

/-!
Shallow embedding of the content-api-gateway authorization pipeline:
the Lambda authorizer (`src/functions/authorizer.js`) and the resource
handler (`src/functions/handler.js`), which contains the article CRUD
permission checks, the listing filter and the per-tier rate limiter.
External collaborators (JWT verification, the Permit.io policy service,
MongoDB) are modelled as injected inputs; their results are parameters
of the embedded functions.
-/

namespace ContentGateway

/-- Article `status` field (mongoose enum `["draft", "published"]`). -/
inductive Status
  | draft
  | published
deriving DecidableEq, Repr

/-- Article `category` field (mongoose enum `["free", "premium"]`). -/
inductive Category
  | free
  | premium
deriving DecidableEq, Repr

/-- An article document, per `src/models/article.js`.  Dates are epoch
milliseconds. -/
structure Article where
  id : String
  title : String
  content : String
  author : String
  status : Status
  category : Category
  tags : List String
  createdAt : Nat
  updatedAt : Nat
deriving DecidableEq, Repr

/-- The article collection; `Article.findById` searches it by `id`. -/
def findById (db : List Article) (aid : String) : Option Article :=
  db.find? (fun a => a.id = aid)

/-- Models `article.save()` on a fetched document: replace the stored document
with the mutated one (same `_id`). -/
def saveById (db : List Article) (aid : String) (a' : Article) : List Article :=
  db.map (fun a => if a.id = aid then a' else a)

/-- Models `Article.findByIdAndDelete(articleId)`. -/
def deleteById (db : List Article) (aid : String) : List Article :=
  db.filter (fun a => a.id ≠ aid)

/-- A `createResponse` result, keeping the fields the claims inspect:
the HTTP status code and the `error`/`message` strings of the JSON body. -/
structure Response where
  statusCode : Nat
  error : Option String := none
  message : Option String := none
deriving DecidableEq, Repr

/-! ## JS string helpers -/

/-- JS `s.split(sep)` for a single-character separator, written as
structural recursion so that concrete strings evaluate inside the
kernel.  Matches JS semantics: `"".split(sep)` is `[""]` and a leading
separator yields a leading empty segment. -/
def jsSplitAux (sep : Char) : List Char → List Char → List String
  | [], acc => [String.mk acc.reverse]
  | c :: rest, acc =>
    if c = sep then String.mk acc.reverse :: jsSplitAux sep rest []
    else jsSplitAux sep rest (c :: acc)

/-- JS `s.split(sep)` for a single-character separator. -/
def jsSplit (sep : Char) (s : String) : List String :=
  jsSplitAux sep s.toList []

/-- Decimal digit characters, for number-to-string interpolation. -/
def digitChar : Nat → Char
  | 0 => '0'
  | 1 => '1'
  | 2 => '2'
  | 3 => '3'
  | 4 => '4'
  | 5 => '5'
  | 6 => '6'
  | 7 => '7'
  | 8 => '8'
  | 9 => '9'
  | _ => '*'

/-- Decimal digits of `n`, most significant first; the first argument
is structural fuel (any value above `n` yields the digits of `n`). -/
def decimalAux : Nat → Nat → List Char
  | 0, _ => []
  | fuel + 1, n =>
    if n < 10 then [digitChar n]
    else decimalAux fuel (n / 10) ++ [digitChar (n % 10)]

/-- The JS template interpolation of a nonnegative number: standard
decimal notation, most significant digit first. -/
def natToDecimal (n : Nat) : String :=
  String.mk (decimalAux (n + 1) n)

/-- Decimal digit test, for characters between `'0'` and `'9'`. -/
def isDigitChar (c : Char) : Bool :=
  decide (48 ≤ c.toNat) && decide (c.toNat ≤ 57)

/-- Numeric value of a digit character. -/
def digitVal (c : Char) : Nat := c.toNat - 48

/-- Value of a digit string, most significant first. -/
def parseDigits (cs : List Char) : Nat :=
  cs.foldl (fun acc c => acc * 10 + digitVal c) 0

/-- JS `parseInt(s)` on the strings arising here: the value of the
longest leading run of decimal digits, `none` standing for `NaN` when
there is none (a `NaN` comparison is false, so a `NaN` never
satisfies the purge condition below).  The leading-whitespace and sign
handling of `parseInt` is not modelled; the segments parsed here come
from `:`-splitting rate-limit keys. -/
def jsParseInt (s : String) : Option Nat :=
  let ds := s.toList.takeWhile isDigitChar
  if ds.isEmpty then none else some (parseDigits ds)

/-! ## Rate limiter (`enforceRateLimiting`, handler.js) -/

/-- The in-memory `rateLimits` map, keyed by the literal JS key string
(the interpolation of userId, a colon, and the window index), with
`rateLimits.get(key) || 0` read semantics (absent = 0). -/
def RateTable : Type := String → Nat

/-- The window length `windowMs = 60 * 60 * 1000` (1 hour). -/
def windowMs : Nat := 60 * 60 * 1000

/-- The limit lookup `limits[subscriptionTier] || limits.free`: `none` is the
`enterprise` value `Infinity`; an unknown or absent tier falls back to
the `free` limit 100. -/
def tierLimit (tier : Option String) : Option Nat :=
  match tier with
  | some "free" => some 100
  | some "premium" => some 1000
  | some "enterprise" => none
  | _ => some 100

/-- The `${subscriptionTier}` interpolation in the rate-limit message:
an absent tier prints as `undefined`. -/
def tierText (tier : Option String) : String :=
  tier.getD "undefined"

/-- The rate-limit key: the interpolation of the user id, a colon and
the decimal window index `Math.floor(now / windowMs)`. -/
def rateKey (uid : String) (w : Nat) : String :=
  uid ++ ":" ++ natToDecimal w

/-- The purge condition of the cleanup loop:
`keyTime = parseInt(k.split(":")[1]) * windowMs`, and the entry is
deleted when `now - keyTime > windowMs`.  Note the parsed value is the
SECOND `:`-segment of the key: for a user id containing `:` this is a
piece of the id, not the window index.  An absent segment or a `NaN`
parse makes the comparison false. -/
def shouldPurge (now : Nat) (k : String) : Bool :=
  match (jsSplit ':' k)[1]? with
  | none => false
  | some seg =>
    match jsParseInt seg with
    | none => false
    | some p => decide (now - p * windowMs > windowMs)

/-- The opportunistic cleanup loop: delete every entry whose purge
condition holds (JS negative differences compare false, as does
truncated `Nat` subtraction).  Deletion reads back as count 0. -/
def cleanupTable (now : Nat) (m : RateTable) : RateTable :=
  fun k => if shouldPurge now k then 0 else m k

/-- Models `enforceRateLimiting(userId, subscriptionTier)` at instant `now`.
`doCleanup` stands for the `Math.random() < 0.01` coin.  Returns the
thrown error or success, paired with the (possibly updated) table. -/
def enforceRateLimiting (userId : Option String) (tier : Option String)
    (now : Nat) (doCleanup : Bool) (m : RateTable) :
    Except String Unit × RateTable :=
  match userId with
  | none => (.ok (), m)
  | some uid =>
    if uid = "" then (.ok (), m)
    else
      match tierLimit tier with
      | none => (.ok (), m)
      | some limit =>
        let key := rateKey uid (now / windowMs)
        let current := m key
        if current ≥ limit then
          (.error ("Rate limit exceeded. " ++ tierText tier ++ " tier allows "
            ++ toString limit ++ " requests/hour"), m)
        else
          let m' : RateTable := fun k => if k = key then current + 1 else m k
          (.ok (), if doCleanup then cleanupTable now m' else m')

/-- A sequence of rate-limited requests by one principal: each element
is the instant of the call and its cleanup coin.  Stops at the first
thrown rate-limit error. -/
def admitSeq (userId tier : Option String) :
    List (Nat × Bool) → RateTable → Except String RateTable
  | [], m => .ok m
  | (t, dc) :: rest, m =>
    match enforceRateLimiting userId tier t dc m with
    | (.ok _, m') => admitSeq userId tier rest m'
    | (.error e, _) => .error e

/-! ## Article handlers (handler.js) -/

/-- The parsed JSON body of a PUT `/articles/{id}` request:
`Object.assign(article, updateData)` overwrites the supplied fields. -/
structure UpdateData where
  title : Option String := none
  content : Option String := none
  status : Option Status := none
  category : Option Category := none
  tags : Option (List String) := none
deriving Repr

/-- Models `Object.assign(article, updateData)`. -/
def applyUpdate (a : Article) (u : UpdateData) : Article :=
  { a with
    title := u.title.getD a.title
    content := u.content.getD a.content
    status := u.status.getD a.status
    category := u.category.getD a.category
    tags := u.tags.getD a.tags }

/-- Models `["editor", "admin"].includes(role)`. -/
def privilegedRole (role : String) : Prop :=
  role = "editor" ∨ role = "admin"

instance : DecidablePred privilegedRole := fun role =>
  inferInstanceAs (Decidable (role = "editor" ∨ role = "admin"))

/-- Models `updateArticle(articleId, body, userId, role)`: ownership check for
non-editor/admin principals, then assign the parsed body and save.
Returns the response together with the resulting collection. -/
def updateArticle (articleId : Option String) (body : UpdateData)
    (userId role : String) (now : Nat) (db : List Article) :
    Response × List Article :=
  match articleId with
  | none => ({ statusCode := 400, error := some "Article ID is required" }, db)
  | some aid =>
    match findById db aid with
    | none => ({ statusCode := 404, error := some "Article not found" }, db)
    | some article =>
      if article.author ≠ userId ∧ ¬ privilegedRole role then
        ({ statusCode := 403, error := some "Can only edit your own articles" }, db)
      else
        let article' := { applyUpdate article body with updatedAt := now }
        ({ statusCode := 200, message := some "Article updated successfully" },
          saveById db aid article')

/-- Models `deleteArticle(articleId, userId, role)`: ownership check for
non-editor/admin principals, then `findByIdAndDelete`. -/
def deleteArticle (articleId : Option String) (userId role : String)
    (db : List Article) : Response × List Article :=
  match articleId with
  | none => ({ statusCode := 400, error := some "Article ID is required" }, db)
  | some aid =>
    match findById db aid with
    | none => ({ statusCode := 404, error := some "Article not found" }, db)
    | some article =>
      if article.author ≠ userId ∧ ¬ privilegedRole role then
        ({ statusCode := 403, error := some "Can only delete your own articles" }, db)
      else
        ({ statusCode := 200, message := some "Article deleted successfully" },
          deleteById db aid)

/-- Models `publishArticle(articleId, userId, role)`: editors, admins, or the
article's own author may publish; the article's status becomes
`published`. -/
def publishArticle (articleId : Option String) (userId role : String)
    (now : Nat) (db : List Article) : Response × List Article :=
  match articleId with
  | none => ({ statusCode := 400, error := some "Article ID is required" }, db)
  | some aid =>
    match findById db aid with
    | none => ({ statusCode := 404, error := some "Article not found" }, db)
    | some article =>
      if article.author ≠ userId ∧ ¬ privilegedRole role then
        ({ statusCode := 403, error := some "Only editors or article owners can publish" }, db)
      else
        let article' := { article with status := Status.published, updatedAt := now }
        ({ statusCode := 200, message := some "Article published successfully" },
          saveById db aid article')

/-- The `.sort({ createdAt: -1 })` order: newest first. -/
def createdDesc (a b : Article) : Prop :=
  b.createdAt ≤ a.createdAt

instance : DecidableRel createdDesc := fun a b =>
  inferInstanceAs (Decidable (b.createdAt ≤ a.createdAt))

instance : IsTotal Article createdDesc :=
  ⟨fun a b => (Nat.le_total b.createdAt a.createdAt).imp id id⟩

instance : IsTrans Article createdDesc :=
  ⟨fun _ _ _ hab hbc => Nat.le_trans hbc hab⟩

/-- Models `getFilteredArticles(userId, role)`: non-editors see published
articles plus their own; then `.sort({ createdAt: -1 }).limit(20)`. -/
def getFilteredArticles (userId role : String) (db : List Article) :
    List Article :=
  let base :=
    if privilegedRole role then db
    else db.filter (fun a => a.status = Status.published ∨ a.author = userId)
  (List.insertionSort createdDesc base).take 20

/-- Models the GET single-article branch of the Permit-variant
`handleArticles` (handler.js:98-148): `canRead` is the injected
`permit.check` result; a denial is classified from the article's
attributes into a draft-visibility message, a premium-subscription
message (for `subscription_tier === "free"`), or the fallback
"Access denied". -/
def getArticle (articleId : String) (userId subscription_tier : String)
    (canRead : Bool) (db : List Article) : Response :=
  match findById db articleId with
  | none => { statusCode := 404, error := some "Article not found" }
  | some article =>
    if !canRead then
      if article.status = Status.draft ∧ article.author ≠ userId then
        { statusCode := 403,
          error := some "Cannot view draft articles of other users" }
      else if article.category = Category.premium ∧ subscription_tier = "free" then
        { statusCode := 403,
          error := some "Premium subscription required to access premium content" }
      else
        { statusCode := 403, error := some "Access denied" }
    else
      { statusCode := 200 }

/-! ## Request classification (authorizer.js, extractResourceInfo) -/

/-- The suffixes of a character list, longest first (including the
empty suffix). -/
def charTails : List Char → List (List Char)
  | [] => [[]]
  | c :: cs => (c :: cs) :: charTails cs

/-- JS `String.prototype.includes`: substring containment. -/
def strContains (s pat : String) : Bool :=
  (charTails s.toList).any (fun t => pat.toList.isPrefixOf t)

/-- Models `pathParts.indexOf(seg)` followed by `pathParts[idx + 1]`:
the segment immediately after the first exact occurrence of `seg`. -/
def segAfter (parts : List String) (seg : String) : Option String :=
  match parts.findIdx? (fun x => x = seg) with
  | some i => parts[i + 1]?
  | none => none

/-- The authorizer's `resource` value: the articles branch (and the
default) build an object literal `{type: "Article", ...}`, the other
branches assign a plain string. -/
inductive ResourceVal
  | articleObj
  | str (s : String)
deriving DecidableEq, Repr

/-- JS `String(resource)`: an object stringifies to
`"[object Object]"`. -/
def resourceValToText : ResourceVal → String
  | .articleObj => "[object Object]"
  | .str s => s

/-- Result of `extractResourceInfo`. -/
structure ResourceInfo where
  resource : ResourceVal
  action : String
  resourceId : Option String
deriving DecidableEq, Repr

/-- JS truthiness of an optional string (`undefined` and `""` are
falsy). -/
def optTruthy : Option String → Bool
  | some s => s ≠ ""
  | none => false

/-- JS `s.split("/")`, as used by the request classifier. -/
def jsSplitSlash (s : String) : List String :=
  jsSplit '/' s

/-- The method re-derivation: when `event.methodArn` is present
(non-empty), `methodArn.split("/")[parts.length - 2] || method`
replaces `event.httpMethod`; a falsy (absent or empty) segment keeps
the original method.  JS `parts[-1]` is `undefined`, hence the length
guard. -/
def extractMethod (methodArn httpMethod : String) : String :=
  if methodArn ≠ "" then
    let parts := jsSplitSlash methodArn
    match (if 2 ≤ parts.length then parts[parts.length - 2]? else none) with
    | some s => if s = "" then httpMethod else s
    | none => httpMethod
  else httpMethod

/-- The resource-type branch of `extractResourceInfo`: first matching
substring among articles, categories, comments, media; unmatched paths
keep the default Article object.  The source's single `if/else if`
chain assigns the resource and the id together; it is split here into
`extractType` and `extractId` over the same chain of conditions. -/
def extractType (path : String) : ResourceVal :=
  if strContains path "articles" then .articleObj
  else if strContains path "categories" then .str "Category"
  else if strContains path "comments" then .str "Comment"
  else if strContains path "media" then .str "Media"
  else .articleObj

/-- The resource-id computation of `extractResourceInfo`: the truthy
segment after the matched type segment, where only the articles branch
additionally excludes the literal `publish`.  (Each non-article branch
of the source re-splits the path into its own `pathParts`.) -/
def extractId (path : String) : Option String :=
  if strContains path "articles" then
    match segAfter (jsSplitSlash path) "articles" with
    | some s => if s ≠ "" ∧ s ≠ "publish" then some s else none
    | none => none
  else if strContains path "categories" then
    match segAfter (jsSplitSlash path) "categories" with
    | some s => if s ≠ "" then some s else none
    | none => none
  else if strContains path "comments" then
    match segAfter (jsSplitSlash path) "comments" with
    | some s => if s ≠ "" then some s else none
    | none => none
  else if strContains path "media" then
    match segAfter (jsSplitSlash path) "media" with
    | some s => if s ≠ "" then some s else none
    | none => none
  else none

/-- The `actionMap` lookup with its `|| "read"` default. -/
def extractAction (path method : String) : String :=
  if method = "GET" then "read"
  else if method = "POST" then
    (if strContains path "publish" then "publish" else "create")
  else if method = "PUT" then "update"
  else if method = "DELETE" then "delete"
  else "read"

/-- Models `extractResourceInfo(event)`.  `methodArn`, `path` and `httpMethod`
model `event.methodArn || ""`, `event.path || ""` and
`event.httpMethod` (empty string for an absent method). -/
def extractResourceInfo (methodArn path httpMethod : String) : ResourceInfo :=
  { resource := extractType path
    action := extractAction path (extractMethod methodArn httpMethod)
    resourceId := extractId path }

/-! ## Authorizer handler (authorizer.js) -/

/-- The decoded JWT payload. -/
structure JwtUser where
  userId : String
  email : String
  role : String
  subscription_tier : Option String
deriving DecidableEq, Repr

/-- The IAM policy returned by `generatePolicy`, with the flat
string-valued `context` mapping. -/
structure Policy where
  principalId : String
  effect : String
  resourceArn : String
  context : List (String × String)
deriving DecidableEq, Repr

/-- Models `generatePolicy(principalId, effect, resource, context)`. -/
def generatePolicy (principalId effect resourceArn : String)
    (ctx : List (String × String)) : Policy :=
  { principalId := principalId, effect := effect, resourceArn := resourceArn,
    context := ctx }

/-- Models `user.subscription_tier || "free"`. -/
def tierOrFree : Option String → String
  | some s => if s = "" then "free" else s
  | none => "free"

/-- The body of the authorizer's `try` block.  `user` is the outcome of
token extraction plus `jwt.verify` (`none` = missing or unverifiable
token); `rbacAllowed` is the first `permit.check`; `dbFetch` is the
database connection + `Article.findById` during the premium check
(`.error msg` = the throw's message); `premiumCheck` is the premium
`permit.check`.  Internal throws are returned as `.error` with the
thrown message. -/
def authorizerInner (methodArn path httpMethod : String)
    (user : Option JwtUser) (rbacAllowed : Bool)
    (dbFetch : Except String (Option Article)) (premiumCheck : Bool) :
    Except String Policy :=
  match user with
  | none => .error "No token provided"
  | some u =>
    let info := extractResourceInfo methodArn path httpMethod
    if rbacAllowed = false then .error "Forbidden"
    else
      let abac : Except String Unit :=
        if info.resource = ResourceVal.str "Article" ∧ optTruthy info.resourceId
            ∧ info.action = "read" then
          match dbFetch with
          | .error msg =>
            if strContains msg "Forbidden" then .error msg else .error "Forbidden"
          | .ok (some article) =>
            if article.category = Category.premium then
              if premiumCheck = false then
                .error "Forbidden - Premium subscription required"
              else .ok ()
            else .ok ()
          | .ok none => .ok ()
        else .ok ()
      match abac with
      | .error e => .error e
      | .ok _ =>
        .ok (generatePolicy u.userId "Allow" methodArn
          [("userId", u.userId), ("email", u.email), ("role", u.role),
           ("subscription_tier", tierOrFree u.subscription_tier),
           ("resource", resourceValToText info.resource),
           ("action", (extractResourceInfo methodArn path httpMethod).action),
           ("resourceId", info.resourceId.getD "")])

/-- The exported authorizer handler: the outer `catch` converts every
failure into a thrown `"Unauthorized"`. -/
def authorizerHandler (methodArn path httpMethod : String)
    (user : Option JwtUser) (rbacAllowed : Bool)
    (dbFetch : Except String (Option Article)) (premiumCheck : Bool) :
    Except String Policy :=
  match authorizerInner methodArn path httpMethod user rbacAllowed dbFetch premiumCheck with
  | .ok p => .ok p
  | .error _ => .error "Unauthorized"

/-! ## Rate-limiter lemmas and claims -/

/-- The cleanup can only lower an entry (to 0) or keep it. -/
theorem cleanupTable_le (now : Nat) (m : RateTable) (k : String) :
    cleanupTable now m k ≤ m k := by
  unfold cleanupTable
  by_cases h : shouldPurge now k
  · simp [h]
  · simp [h]

/-- One admit by a principal whose rate-limit key satisfies the purge
condition at its own instant: the call is admitted, and the firing
cleanup then deletes the just-written ACTIVE window entry, leaving its
count at 0. -/
theorem purge_active_step (uid : String) (hu : ¬ uid = "") (now : Nat)
    (m : RateTable) (hcur : m (rateKey uid (now / windowMs)) < 100)
    (hpurge : shouldPurge now (rateKey uid (now / windowMs)) = true) :
    ∃ m₁, enforceRateLimiting (some uid) (some "free") now true m
        = (Except.ok (), m₁) ∧
      m₁ (rateKey uid (now / windowMs)) = 0 := by
  have hlim : tierLimit (some "free") = some 100 := rfl
  simp only [enforceRateLimiting, hlim, if_neg hu]
  rw [if_neg (by omega : ¬ m (rateKey uid (now / windowMs)) ≥ 100)]
  refine ⟨_, rfl, ?_⟩
  simp only [if_true, cleanupTable, hpurge]

/-- Iterating such admits: every call in the sequence is admitted and
the active window's count stays 0. -/
theorem purge_active_all_admitted (uid : String) (hu : ¬ uid = "") (now : Nat)
    (hpurge : shouldPurge now (rateKey uid (now / windowMs)) = true) :
    ∀ (n : Nat) (m : RateTable), m (rateKey uid (now / windowMs)) = 0 →
      ∃ m', admitSeq (some uid) (some "free")
          (List.replicate n (now, true)) m = Except.ok m' ∧
        m' (rateKey uid (now / windowMs)) = 0 := by
  intro n
  induction n with
  | zero => exact fun m hm => ⟨m, rfl, hm⟩
  | succ k ih =>
    intro m hm
    obtain ⟨m₁, hstep, hm₁⟩ := purge_active_step uid hu now m (by omega) hpurge
    obtain ⟨m', hrun, hm'⟩ := ih m₁ hm₁
    refine ⟨m', ?_, hm'⟩
    rw [List.replicate_succ]
    simp only [admitSeq, hstep]
    exact hrun

/-- Claim C3 fails on the code for principal ids containing `:`
followed by digits: the cleanup computes the entry's age from
`parseInt(key.split(":")[1])`, which for the id `"x:0"` reads the
id's own `0` instead of the window index, so at any instant past the
first hour the firing cleanup deletes the ACTIVE window's entry right
after each increment.  Evaluation at the failing input: 101 admit
calls by `"x:0"` (tier free) at instant `windowMs + 1`, all in the
same window and all with the cleanup coin firing, ALL succeed — the
101st is not denied — and the active counter is left at 0. -/
theorem free_tier_colon_id_101_admits_succeed :
    ∃ m', admitSeq (some "x:0") (some "free")
        (List.replicate 101 (windowMs + 1, true)) (fun _ => 0)
        = Except.ok m' ∧
      m' (rateKey "x:0" ((windowMs + 1) / windowMs)) = 0 :=
  purge_active_all_admitted "x:0" (by decide) (windowMs + 1) (by decide)
    101 (fun _ => 0) rfl

/-- Claim C4: after a successful admit the active window's counter
never exceeds the tier's (finite) limit, and an admit denied for
exceeding the limit leaves the whole counter table unchanged. -/
theorem rate_counter_bounded_and_denial_frame (userId tier : Option String)
    (now : Nat) (dc : Bool) (m : RateTable) :
    (∀ uid L, userId = some uid → ¬ uid = "" → tierLimit tier = some L →
      (enforceRateLimiting userId tier now dc m).1 = Except.ok () →
      (enforceRateLimiting userId tier now dc m).2 (rateKey uid (now / windowMs)) ≤ L) ∧
    (∀ e, (enforceRateLimiting userId tier now dc m).1 = Except.error e →
      (enforceRateLimiting userId tier now dc m).2 = m) := by
  constructor
  · intro uid L huid hu hL hok
    subst huid
    simp only [enforceRateLimiting, if_neg hu, hL] at hok ⊢
    by_cases hge : m (rateKey uid (now / windowMs)) ≥ L
    · rw [if_pos hge] at hok
      exact absurd hok (by simp)
    · rw [if_neg hge] at hok ⊢
      by_cases hdc : dc
      · rw [hdc, if_pos rfl]
        dsimp only
        refine le_trans (cleanupTable_le _ _ _) ?_
        simp
        omega
      · rw [Bool.not_eq_true] at hdc
        rw [hdc, if_neg (by decide)]
        simp
        omega
  · intro e herr
    cases userId with
    | none => simp [enforceRateLimiting] at herr
    | some uid =>
      by_cases hu : uid = ""
      · simp [enforceRateLimiting, hu] at herr
      · simp only [enforceRateLimiting, if_neg hu] at herr ⊢
        cases hL : tierLimit tier with
        | none => rw [hL] at herr
        | some L =>
          rw [hL] at herr
          simp only [] at herr ⊢
          by_cases hge : m (rateKey uid (now / windowMs)) ≥ L
          · rw [if_pos hge]
          · rw [if_neg hge] at herr
            simp at herr

/-- Witness for claim C4 at a concrete admit. -/
theorem rate_counter_bounded_and_denial_frame_witness :
    (enforceRateLimiting (some "u1") (some "free") 0 false
      (fun _ => 0 : RateTable)).1 = Except.ok () ∧
    (enforceRateLimiting (some "u1") (some "free") 0 false
      (fun _ => 0 : RateTable)).2 (rateKey "u1" (0 / windowMs)) ≤ 100 :=
  ⟨rfl,
    (rate_counter_bounded_and_denial_frame (some "u1") (some "free") 0 false
      (fun _ => 0)).1 "u1" 100 rfl (by decide) rfl rfl⟩

/-- Claim C9: an admit call by a principal with no id (or an empty,
falsy id), or with the enterprise tier, succeeds and leaves the
counter table completely unchanged. -/
theorem anonymous_or_enterprise_admit_noop (userId tier : Option String)
    (now : Nat) (dc : Bool) (m : RateTable)
    (h : userId = none ∨ userId = some "" ∨ tier = some "enterprise") :
    enforceRateLimiting userId tier now dc m = (Except.ok (), m) := by
  rcases h with h | h | h
  · subst h; rfl
  · subst h; simp [enforceRateLimiting]
  · subst h
    cases userId with
    | none => rfl
    | some uid =>
      by_cases hu : uid = ""
      · simp [enforceRateLimiting, hu]
      · simp only [enforceRateLimiting, if_neg hu]
        rfl

/-- Witness for claim C9: an anonymous call and an enterprise call. -/
theorem anonymous_or_enterprise_admit_noop_witness :
    enforceRateLimiting none (some "free") 0 false (fun _ => 0 : RateTable)
        = (Except.ok (), (fun _ => 0 : RateTable)) ∧
    enforceRateLimiting (some "u1") (some "enterprise") 0 false
        (fun _ => 7 : RateTable)
      = (Except.ok (), (fun _ => 7 : RateTable)) :=
  ⟨anonymous_or_enterprise_admit_noop none (some "free") 0 false _ (Or.inl rfl),
    anonymous_or_enterprise_admit_noop (some "u1") (some "enterprise") 0 false _
      (Or.inr (Or.inr rfl))⟩

/-! ## Article handler claims -/

/-- Claim C1: an update, delete or publish request on an existing
article whose author differs from the requesting principal, when the
principal's role is neither editor nor admin, is answered with a 403
denial and leaves the article collection unchanged. -/
theorem ownership_denial_and_frame (aid : String) (body : UpdateData)
    (userId role : String) (now : Nat) (db : List Article) (art : Article)
    (hfind : findById db aid = some art)
    (hown : art.author ≠ userId)
    (hrole : ¬ privilegedRole role) :
    updateArticle (some aid) body userId role now db
      = ({ statusCode := 403, error := some "Can only edit your own articles" }, db) ∧
    deleteArticle (some aid) userId role db
      = ({ statusCode := 403, error := some "Can only delete your own articles" }, db) ∧
    publishArticle (some aid) userId role now db
      = ({ statusCode := 403, error := some "Only editors or article owners can publish" }, db) := by
  refine ⟨?_, ?_, ?_⟩ <;>
    simp only [updateArticle, deleteArticle, publishArticle, hfind] <;>
    rw [if_pos ⟨hown, hrole⟩]

/-- A sample draft article owned by `owner1`, used in witnesses. -/
def draftByOwner1 : Article :=
  { id := "a1", title := "t", content := "c", author := "owner1",
    status := Status.draft, category := Category.free, tags := [],
    createdAt := 0, updatedAt := 0 }

/-- Witness for claim C1 at a concrete article and principal. -/
theorem ownership_denial_and_frame_witness :
    findById [draftByOwner1] "a1" = some draftByOwner1 ∧
    updateArticle (some "a1") {} "other" "author" 9 [draftByOwner1]
      = ({ statusCode := 403, error := some "Can only edit your own articles" },
        [draftByOwner1]) :=
  ⟨rfl,
    (ownership_denial_and_frame "a1" {} "other" "author" 9 [draftByOwner1]
      draftByOwner1 rfl (by decide) (by decide)).1⟩

/-- A sample draft article whose author is the requesting principal
`author1`. -/
def selfDraft : Article :=
  { id := "a1", title := "t", content := "c", author := "author1",
    status := Status.draft, category := Category.free, tags := [],
    createdAt := 0, updatedAt := 0 }

/-- Claim C2 is contradicted by the code: `publishArticle` lets the
article's own author publish (the guard denies only when the caller is
neither the author nor editor/admin, and the code's denial message
itself says "Only editors or article owners can publish"), while the
spec's role table and the repository's own test script
("Author publishes own article (should fail)") require publish to be
restricted to editor/admin.  Evaluation at the failing input: an
author publishing their own draft is allowed (200) and the article
becomes published. -/
theorem author_publishes_own_article_allowed :
    publishArticle (some "a1") "author1" "author" 5 [selfDraft]
      = ({ statusCode := 200, message := some "Article published successfully" },
        [{ selfDraft with status := Status.published, updatedAt := 5 }]) := by
  rfl

/-- Claim C8: a listing by a principal whose role is neither editor
nor admin only contains articles that are published or owned by the
principal. -/
theorem listing_filter_non_privileged (userId role : String)
    (db : List Article) (a : Article)
    (hrole : ¬ privilegedRole role)
    (hmem : a ∈ getFilteredArticles userId role db) :
    a.status = Status.published ∨ a.author = userId := by
  unfold getFilteredArticles at hmem
  rw [if_neg hrole] at hmem
  have h1 := (List.take_sublist 20 _).subset hmem
  rw [List.mem_insertionSort] at h1
  exact of_decide_eq_true (List.mem_filter.mp h1).2

/-- A sample published article owned by `owner1`. -/
def publishedByOwner1 : Article :=
  { id := "a2", title := "t2", content := "c2", author := "owner1",
    status := Status.published, category := Category.free, tags := [],
    createdAt := 3, updatedAt := 3 }

/-- Witness for claim C8 at a concrete listing. -/
theorem listing_filter_non_privileged_witness :
    ¬ privilegedRole "viewer" ∧
    publishedByOwner1 ∈ getFilteredArticles "viewer1" "viewer" [publishedByOwner1] ∧
    (publishedByOwner1.status = Status.published ∨
      publishedByOwner1.author = "viewer1") :=
  ⟨by decide, by decide,
    listing_filter_non_privileged "viewer1" "viewer" [publishedByOwner1]
      publishedByOwner1 (by decide) (by decide)⟩

/-- Claim C10: every listing result contains at most 20 articles and
is ordered by creation time descending (newest first). -/
theorem listing_cap_and_order (userId role : String) (db : List Article) :
    (getFilteredArticles userId role db).length ≤ 20 ∧
    List.Sorted createdDesc (getFilteredArticles userId role db) := by
  unfold getFilteredArticles
  refine ⟨List.length_take_le _ _, ?_⟩
  exact (List.sorted_insertionSort createdDesc _).sublist (List.take_sublist _ _)

/-! ## Authorizer claims -/

/-- Projection helper: the id component of `extractResourceInfo`. -/
theorem extractResourceInfo_resourceId (methodArn path httpMethod : String) :
    (extractResourceInfo methodArn path httpMethod).resourceId = extractId path :=
  rfl

/-- Projection helper: the resource component of
`extractResourceInfo`. -/
theorem extractResourceInfo_resource (methodArn path httpMethod : String) :
    (extractResourceInfo methodArn path httpMethod).resource = extractType path :=
  rfl

/-- Helper: what the articles branch of the id extraction can return:
a truthy segment right after `articles` that is not `publish`. -/
theorem articlesBranch_sound (parts : List String) (s : String)
    (h : (match segAfter parts "articles" with
          | some x => if x ≠ "" ∧ x ≠ "publish" then some x else none
          | none => none) = some s) :
    s ≠ "" ∧ s ≠ "publish" ∧ segAfter parts "articles" = some s := by
  cases hseg : segAfter parts "articles" with
  | none =>
    rw [hseg] at h
    exact absurd h (by simp)
  | some x =>
    rw [hseg] at h
    simp only [] at h
    by_cases hx : x ≠ "" ∧ x ≠ "publish"
    · rw [if_pos hx] at h
      obtain rfl : x = s := by injection h
      exact ⟨hx.1, hx.2, rfl⟩
    · rw [if_neg hx] at h
      exact absurd h (by simp)

/-- Helper: what the categories/comments/media branches of the id
extraction can return: the truthy segment right after the type
segment, with no `publish` exclusion. -/
theorem otherBranch_sound (parts : List String) (seg s : String)
    (h : (match segAfter parts seg with
          | some x => if x ≠ "" then some x else none
          | none => none) = some s) :
    s ≠ "" ∧ segAfter parts seg = some s := by
  cases hseg : segAfter parts seg with
  | none =>
    rw [hseg] at h
    exact absurd h (by simp)
  | some x =>
    rw [hseg] at h
    simp only [] at h
    by_cases hx : x ≠ ""
    · rw [if_pos hx] at h
      obtain rfl : x = s := by injection h
      exact ⟨hx, rfl⟩
    · rw [if_neg hx] at h
      exact absurd h (by simp)

/-- Claim C7 counterexample: for a categories path the literal segment
`publish` IS taken as the resource id (the exclusion exists only in
the articles branch), contradicting "the literal segment `publish` is
never taken as a resource id" for every resource type. -/
theorem publish_taken_as_category_id :
    (extractResourceInfo "" "/categories/publish" "POST").resourceId
      = some "publish" := by
  rfl

/-- Claim C7 as amended: the extracted resource id is always a
nonempty path segment immediately following one of the resource-type
segments, and the `publish` exclusion applies only to the articles
resource: an articles-classified request never gets `publish` as its
id, while for every path classified as categories, comments or media
the truthy segment after the type segment IS taken as the id — even
when that segment is `publish`. -/
theorem resource_id_extraction_amended (methodArn path httpMethod : String) :
    ((extractResourceInfo methodArn path httpMethod).resource = ResourceVal.articleObj →
      (extractResourceInfo methodArn path httpMethod).resourceId ≠ some "publish") ∧
    (∀ s, (extractResourceInfo methodArn path httpMethod).resourceId = some s →
      s ≠ "" ∧
      (segAfter (jsSplitSlash path) "articles" = some s ∨
       segAfter (jsSplitSlash path) "categories" = some s ∨
       segAfter (jsSplitSlash path) "comments" = some s ∨
       segAfter (jsSplitSlash path) "media" = some s)) ∧
    (∀ s, strContains path "articles" = false →
      strContains path "categories" = true →
      segAfter (jsSplitSlash path) "categories" = some s → ¬ s = "" →
      (extractResourceInfo methodArn path httpMethod).resourceId = some s) ∧
    (∀ s, strContains path "articles" = false →
      strContains path "categories" = false →
      strContains path "comments" = true →
      segAfter (jsSplitSlash path) "comments" = some s → ¬ s = "" →
      (extractResourceInfo methodArn path httpMethod).resourceId = some s) ∧
    (∀ s, strContains path "articles" = false →
      strContains path "categories" = false →
      strContains path "comments" = false →
      strContains path "media" = true →
      segAfter (jsSplitSlash path) "media" = some s → ¬ s = "" →
      (extractResourceInfo methodArn path httpMethod).resourceId = some s) := by
  rw [extractResourceInfo_resource, extractResourceInfo_resourceId]
  refine ⟨?_, ?_, ?_, ?_, ?_⟩
  · intro hres hcon
    unfold extractType at hres
    unfold extractId at hcon
    by_cases h1 : strContains path "articles" = true
    · rw [if_pos h1] at hcon
      exact (articlesBranch_sound _ _ hcon).2.1 rfl
    · rw [if_neg h1] at hres hcon
      by_cases h2 : strContains path "categories" = true
      · rw [if_pos h2] at hres
        simp at hres
      · rw [if_neg h2] at hres hcon
        by_cases h3 : strContains path "comments" = true
        · rw [if_pos h3] at hres
          simp at hres
        · rw [if_neg h3] at hres hcon
          by_cases h4 : strContains path "media" = true
          · rw [if_pos h4] at hres
            simp at hres
          · rw [if_neg h4] at hcon
            exact absurd hcon (by simp)
  · intro s hs
    unfold extractId at hs
    by_cases h1 : strContains path "articles" = true
    · rw [if_pos h1] at hs
      obtain ⟨hne, _, hseg⟩ := articlesBranch_sound _ _ hs
      exact ⟨hne, Or.inl hseg⟩
    · rw [if_neg h1] at hs
      by_cases h2 : strContains path "categories" = true
      · rw [if_pos h2] at hs
        obtain ⟨hne, hseg⟩ := otherBranch_sound _ _ _ hs
        exact ⟨hne, Or.inr (Or.inl hseg)⟩
      · rw [if_neg h2] at hs
        by_cases h3 : strContains path "comments" = true
        · rw [if_pos h3] at hs
          obtain ⟨hne, hseg⟩ := otherBranch_sound _ _ _ hs
          exact ⟨hne, Or.inr (Or.inr (Or.inl hseg))⟩
        · rw [if_neg h3] at hs
          by_cases h4 : strContains path "media" = true
          · rw [if_pos h4] at hs
            obtain ⟨hne, hseg⟩ := otherBranch_sound _ _ _ hs
            exact ⟨hne, Or.inr (Or.inr (Or.inr hseg))⟩
          · rw [if_neg h4] at hs
            exact absurd hs (by simp)
  · intro s h1 h2 hseg hs
    unfold extractId
    rw [if_neg (by simp [h1]), if_pos h2, hseg]
    simp only []
    rw [if_pos hs]
  · intro s h1 h2 h3 hseg hs
    unfold extractId
    rw [if_neg (by simp [h1]), if_neg (by simp [h2]), if_pos h3, hseg]
    simp only []
    rw [if_pos hs]
  · intro s h1 h2 h3 h4 hseg hs
    unfold extractId
    rw [if_neg (by simp [h1]), if_neg (by simp [h2]), if_neg (by simp [h3]),
      if_pos h4, hseg]
    simp only []
    rw [if_pos hs]

/-- Witness for the amended claim C7 at concrete paths, including the
`publish` segment taken as the id for each non-article resource. -/
theorem resource_id_extraction_amended_witness :
    (extractResourceInfo "" "/articles/a5" "GET").resourceId ≠ some "publish" ∧
    ("a5" ≠ "" ∧
      (segAfter (jsSplitSlash "/articles/a5") "articles" = some "a5" ∨
       segAfter (jsSplitSlash "/articles/a5") "categories" = some "a5" ∨
       segAfter (jsSplitSlash "/articles/a5") "comments" = some "a5" ∨
       segAfter (jsSplitSlash "/articles/a5") "media" = some "a5")) ∧
    (extractResourceInfo "" "/categories/publish" "GET").resourceId
      = some "publish" ∧
    (extractResourceInfo "" "/comments/publish" "GET").resourceId
      = some "publish" ∧
    (extractResourceInfo "" "/media/publish" "GET").resourceId
      = some "publish" :=
  ⟨(resource_id_extraction_amended "" "/articles/a5" "GET").1 rfl,
    (resource_id_extraction_amended "" "/articles/a5" "GET").2.1 "a5" rfl,
    (resource_id_extraction_amended "" "/categories/publish" "GET").2.2.1
      "publish" rfl rfl rfl (by decide),
    (resource_id_extraction_amended "" "/comments/publish" "GET").2.2.2.1
      "publish" rfl rfl rfl rfl (by decide),
    (resource_id_extraction_amended "" "/media/publish" "GET").2.2.2.2
      "publish" rfl rfl rfl rfl rfl (by decide)⟩

/-- A sample free-tier viewer principal. -/
def freeViewer : JwtUser :=
  { userId := "viewer1", email := "v@example.com", role := "viewer",
    subscription_tier := some "free" }

/-- A sample published premium article. -/
def premiumPublished : Article :=
  { id := "abc123", title := "tp", content := "cp", author := "editor1",
    status := Status.published, category := Category.premium, tags := [],
    createdAt := 1, updatedAt := 1 }

/-- Claim C5 is contradicted by the code: the authorizer's premium
attribute check guards on `resource === "Article"`, but for article
paths `resource` is the object literal (and for the other paths a
different string), so the strict comparison is always false and the
whole attribute block — including its fail-closed `catch` — is
unreachable.  Evaluation at the failing input: a free viewer's read of
`/articles/abc123` yields an Allow policy even when the attribute
lookup fails, and also when the lookup returns a premium article with
the premium check denying — the pipeline skips the attribute layer
rather than failing closed. -/
theorem attribute_lookup_failure_still_allows :
    authorizerHandler "" "/articles/abc123" "GET" (some freeViewer)
        true (Except.error "database connection failed") false
      = Except.ok (generatePolicy "viewer1" "Allow" ""
          [("userId", "viewer1"), ("email", "v@example.com"),
           ("role", "viewer"), ("subscription_tier", "free"),
           ("resource", "[object Object]"), ("action", "read"),
           ("resourceId", "abc123")]) ∧
    authorizerHandler "" "/articles/abc123" "GET" (some freeViewer)
        true (Except.ok (some premiumPublished)) false
      = Except.ok (generatePolicy "viewer1" "Allow" ""
          [("userId", "viewer1"), ("email", "v@example.com"),
           ("role", "viewer"), ("subscription_tier", "free"),
           ("resource", "[object Object]"), ("action", "read"),
           ("resourceId", "abc123")]) :=
  ⟨rfl, rfl⟩

/-- Claim C6 counterexample: a role-policy denial (RBAC `permit.check`
false for a viewer's create) surfaces with the same generic message
`Unauthorized` as a missing-credential denial — the externally visible
denial message does not name the specific reason. -/
theorem policy_denial_message_is_generic :
    authorizerHandler "" "/articles" "POST" (some freeViewer) false
        (Except.ok none) true
      = Except.error "Unauthorized" ∧
    authorizerHandler "" "/articles" "POST" none true
        (Except.ok none) true
      = Except.error "Unauthorized" :=
  ⟨rfl, rfl⟩

/-- Claim C6 as amended: rate-limit denials' messages include the tier
and the numeric limit, and the handler-layer policy denials carry
reason-specific messages; but every denial surfaced by the authorizer
carries only the generic message `Unauthorized`. -/
theorem denial_messages_amended :
    (∀ (methodArn path httpMethod : String) (user : Option JwtUser)
        (rb : Bool) (dbf : Except String (Option Article)) (pc : Bool)
        (e : String),
      authorizerHandler methodArn path httpMethod user rb dbf pc
          = Except.error e →
      e = "Unauthorized") ∧
    (∀ (uid : String) (tier : Option String) (now : Nat) (dc : Bool)
        (m : RateTable) (L : Nat) (e : String),
      tierLimit tier = some L →
      (enforceRateLimiting (some uid) tier now dc m).1 = Except.error e →
      e = "Rate limit exceeded. " ++ tierText tier ++ " tier allows "
        ++ toString L ++ " requests/hour") ∧
    (∀ (aid userId stier : String) (db : List Article) (art : Article),
      findById db aid = some art →
      art.status = Status.draft → art.author ≠ userId →
      (getArticle aid userId stier false db).error
          = some "Cannot view draft articles of other users") ∧
    (∀ (aid userId : String) (db : List Article) (art : Article),
      findById db aid = some art →
      ¬ (art.status = Status.draft ∧ art.author ≠ userId) →
      art.category = Category.premium →
      (getArticle aid userId "free" false db).error
          = some "Premium subscription required to access premium content") ∧
    (∀ (aid : String) (body : UpdateData) (userId role : String) (now : Nat)
        (db : List Article) (art : Article),
      findById db aid = some art → art.author ≠ userId → ¬ privilegedRole role →
      (updateArticle (some aid) body userId role now db).1.error
          = some "Can only edit your own articles" ∧
      (deleteArticle (some aid) userId role db).1.error
          = some "Can only delete your own articles" ∧
      (publishArticle (some aid) userId role now db).1.error
          = some "Only editors or article owners can publish") := by
  refine ⟨?_, ?_, ?_, ?_, ?_⟩
  · intro methodArn path httpMethod user rb dbf pc e herr
    unfold authorizerHandler at herr
    cases hinner : authorizerInner methodArn path httpMethod user rb dbf pc with
    | ok p => rw [hinner] at herr; exact absurd herr (by simp)
    | error msg =>
      rw [hinner] at herr
      simp only [] at herr
      injection herr with h
      exact h.symm
  · intro uid tier now dc m L e hL herr
    by_cases hu : uid = ""
    · simp [enforceRateLimiting, hu] at herr
    · simp only [enforceRateLimiting, if_neg hu] at herr
      rw [hL] at herr
      simp only [] at herr
      by_cases hge : m (rateKey uid (now / windowMs)) ≥ L
      · rw [if_pos hge] at herr
        injection herr with h
        exact h.symm
      · rw [if_neg hge] at herr
        exact absurd herr (by simp)
  · intro aid userId stier db art hfind hst hown
    simp only [getArticle, hfind, Bool.not_false, if_true]
    rw [if_pos ⟨hst, hown⟩]
  · intro aid userId db art hfind hnot hcat
    simp only [getArticle, hfind, Bool.not_false, if_true]
    rw [if_neg hnot, if_pos ⟨hcat, trivial⟩]
  · intro aid body userId role now db art hfind hown hrole
    refine ⟨?_, ?_, ?_⟩ <;>
      simp only [updateArticle, deleteArticle, publishArticle, hfind] <;>
      rw [if_pos ⟨hown, hrole⟩]

/-- Witness for the amended claim C6 at concrete denials. -/
theorem denial_messages_amended_witness :
    ("Unauthorized" : String) = "Unauthorized" ∧
    ("Rate limit exceeded. free tier allows 100 requests/hour"
      = "Rate limit exceeded. " ++ tierText (some "free") ++ " tier allows "
        ++ toString (100 : Nat) ++ " requests/hour") ∧
    (getArticle "a1" "other" "premium" false [draftByOwner1]).error
      = some "Cannot view draft articles of other users" ∧
    (getArticle "abc123" "viewer1" "free" false [premiumPublished]).error
      = some "Premium subscription required to access premium content" ∧
    (updateArticle (some "a1") {} "other" "author" 9 [draftByOwner1]).1.error
      = some "Can only edit your own articles" :=
  ⟨denial_messages_amended.1 "" "/articles" "POST" (some freeViewer)
      false (Except.ok none) true "Unauthorized" rfl,
    denial_messages_amended.2.1 "u1" (some "free") 0 false (fun _ => 100) 100
      "Rate limit exceeded. free tier allows 100 requests/hour" rfl rfl,
    denial_messages_amended.2.2.1 "a1" "other" "premium" [draftByOwner1]
      draftByOwner1 rfl rfl (by decide),
    denial_messages_amended.2.2.2.1 "abc123" "viewer1" [premiumPublished]
      premiumPublished rfl (by decide) rfl,
    (denial_messages_amended.2.2.2.2 "a1" {} "other" "author" 9 [draftByOwner1]
      draftByOwner1 rfl (by decide) (by decide)).1⟩

end ContentGateway
